import Mathlib

/-!
Shallow embedding of the Quizler browser extension and its backend.

Sources embedded here:
* the content-script widget (`getScrollPercent`, `collectPageText`,
  `isQuizPayload`, `saveQuizResult`, the auth-state effect, `openWidget`,
  `handleNext`) from `src/pages/content` (the variant with Supabase
  persistence);
* the backend route and service (`handleQuiz`, `generateQuiz`, the question
  count clamp) from `src/backend/routes/quiz.ts` and
  `src/backend/services/quiz.service.ts`.

Modelling conventions:
* JavaScript strings are `List Char`; JavaScript finite numbers are `ℚ`
  (exact for all values these functions handle), with `NaN`/`±Infinity`
  represented explicitly where `Number(...)` coercion matters;
* `Math.round x` is `⌊x + 1/2⌋`, which agrees with JS `Math.round` on all
  finite inputs; `Math.floor` is `Int.floor`;
* external effects (Supabase session and insert, `fetch`, `generateObject`)
  are oracle parameters; a rejected promise is `Except.error`;
* React state is a record; one event handler invocation is a function from
  the pre-render state to the post-flush state (all `setX` calls of one
  handler are batched, and reads inside the handler see the pre-render
  values, which is exactly how the source's closures behave).
-/

namespace Quizler

/-! ## Data model -/

/-- A quiz question as produced by the backend and consumed by the widget.
`correctIndex` is a JS number; the widget only ever compares it for equality
with a selected option index, so `ℤ` suffices for every behaviour the claims
touch. -/
structure QuizItem where
  question : String
  options : List String
  correctIndex : ℤ
deriving DecidableEq, Repr

/-- The generated quiz document: `type QuizPayload = { questions: QuizItem[] }`. -/
structure QuizPayload where
  questions : List QuizItem
deriving DecidableEq, Repr

/-- `isQuizPayload` from the content script:
`value && value.questions.length > 0 && value.questions.every(item => item.options.length === 4)`.
Note the predicate does not look at `correctIndex`. -/
def isQuizPayload : Option QuizPayload → Bool
  | none => false
  | some v => decide (0 < v.questions.length) && v.questions.all (fun item => item.options.length == 4)

/-! ## JS whitespace, `replace(/\s+/g, " ")`, `trim`, `slice` -/

/-- The character class matched by JavaScript `\s` (and removed by
`String.prototype.trim`): ASCII whitespace, NBSP, the Unicode space
separators, the line separators, and the BOM. -/
def jsIsWs (c : Char) : Bool :=
  let n := c.toNat
  n == 0x9 || n == 0xA || n == 0xB || n == 0xC || n == 0xD || n == 0x20 ||
  n == 0xA0 || n == 0x1680 || (0x2000 ≤ n && n ≤ 0x200A) || n == 0x2028 ||
  n == 0x2029 || n == 0x202F || n == 0x205F || n == 0x3000 || n == 0xFEFF

/-- `text.replace(/\s+/g, " ")`: every maximal run of whitespace becomes one
space.  The boolean flag records whether the previous character belonged to a
whitespace run (so the run emits a single `' '` at its first character). -/
def collapseWs : Bool → List Char → List Char
  | _, [] => []
  | inRun, c :: rest =>
    if jsIsWs c then
      if inRun then collapseWs true rest
      else ' ' :: collapseWs true rest
    else c :: collapseWs false rest

/-- `String.prototype.trim`: drop whitespace from both ends. -/
def jsTrim (l : List Char) : List Char :=
  ((l.dropWhile jsIsWs).reverse.dropWhile jsIsWs).reverse

/-- `MAX_TEXT_LENGTH` (same constant in the content script and the backend). -/
def MAX_TEXT_LENGTH : ℕ := 9000

/-- `collectPageText` from the content script, applied to
`document.body?.innerText ?? ""`:
`text.replace(/\s+/g, " ").trim().slice(0, MAX_TEXT_LENGTH)`. -/
def collectPageText (bodyText : List Char) : List Char :=
  (jsTrim (collapseWs false bodyText)).take MAX_TEXT_LENGTH

/-! ## JS number helpers -/

/-- `Math.round` on a finite JS number: `⌊x + 1/2⌋` (halves round toward
`+∞`, as in JavaScript). -/
def jsRound (q : ℚ) : ℤ := ⌊q + 1 / 2⌋

/-- The result of coercing a JS value with `Number(...)`: a finite number,
`NaN`, or an infinity. -/
inductive JSNum where
  | num : ℚ → JSNum
  | nan : JSNum
  | inf : JSNum
  | ninf : JSNum
deriving DecidableEq, Repr

/-! ## Backend: question-count clamp, `generateQuiz`, `handleQuiz` -/

/-- `Number(payload.count ?? 5)` from `quiz.service.ts`:  an absent `count`
defaults to `5` before coercion. -/
def toRequestedCount : Option JSNum → JSNum
  | none => .num 5
  | some j => j

/-- The question-count clamp from `generateQuiz`:
`Number.isFinite(requestedCount) && requestedCount > 0 ? Math.min(Math.floor(requestedCount), 10) : 5`. -/
def questionCount (count : Option JSNum) : ℤ :=
  match toRequestedCount count with
  | .num q => if 0 < q then min ⌊q⌋ 10 else 5
  | _ => 5

/-- The request body as seen by `handleQuiz` after `req.json()` succeeded
with a truthy value.  `url : Option String` is `some` exactly when
`typeof payload.url === "string"`; `text : Option (List Char)` is `some`
exactly when `typeof payload.text === "string"`; `title` flows only into the
prompt consumed by the generation oracle. -/
structure GenBody where
  url : Option String
  title : Option String
  text : Option (List Char)
  count : Option JSNum

/-- A JSON response produced by the quiz route: `200 { ...questions, sourceUrl }`
or `400 { error }`. -/
inductive Resp where
  | ok : QuizPayload → String → Resp
  | badRequest : String → Resp
deriving DecidableEq, Repr

/-- HTTP status of a route response. -/
def Resp.status : Resp → ℕ
  | .ok _ _ => 200
  | .badRequest _ => 400

/-- The page-text selection inside `generateQuiz`:
`typeof text === "string" && text.trim().length > 0 ? text.slice(0, MAX_TEXT_LENGTH) : await fetchPageText(url)`.
`fetchO url` is the oracle for `fetchPageText(url)` (which catches its own
errors and returns `""` on any failure). -/
def selectPageText (fetchO : String → List Char) (url : String) (text : Option (List Char)) : List Char :=
  match text with
  | some t => if 0 < (jsTrim t).length then t.take MAX_TEXT_LENGTH else fetchO url
  | none => fetchO url

/-- `generateQuiz` from `quiz.service.ts`.  `genO` is the oracle for the
`generateObject` call (given the clamped question count embedded in the
prompt); a rejected `generateObject` promise propagates as `Except.error`
because the service has no `try`/`catch` around it. -/
def generateQuiz (fetchO : String → List Char) (genO : ℤ → Except String QuizPayload)
    (url : String) (text : Option (List Char)) (count : Option JSNum) :
    Except String Resp :=
  let pageText := selectPageText fetchO url text
  if pageText.isEmpty then .ok (.badRequest "Unable to extract page text")
  else
    match genO (questionCount count) with
    | .error e => .error e
    | .ok payload => .ok (.ok payload url)

/-- `handleQuiz` from `routes/quiz.ts`.  `parsed` is the outcome of
`await req.json().catch(() => null)` followed by the truthiness test:
`none` covers a JSON parse failure, a `null` body, and any falsy body;
any truthy body behaves like a record (field access on truthy primitives
yields `undefined`, i.e. all-`none` fields). -/
def handleQuiz (fetchO : String → List Char) (genO : ℤ → Except String QuizPayload)
    (parsed : Option GenBody) : Except String Resp :=
  match parsed with
  | none => .ok (.badRequest "Missing url")
  | some b =>
    match b.url with
    | none => .ok (.badRequest "Missing url")
    | some url => generateQuiz fetchO genO url b.text b.count

/-! ## Widget state -/

/-- A row of the `quiz_results` table as inserted by `saveQuizResult`. -/
structure SavedRow where
  user_id : String
  score : ℤ
  total_questions : ℤ
  percentage : ℤ
  page_url : String
  page_title : String
deriving DecidableEq, Repr

/-- The `pendingResult` slot: `{ score, total, percentage } | null`. -/
structure PendingResult where
  score : ℤ
  total : ℤ
  percentage : ℤ
deriving DecidableEq, Repr

/-- The widget's `status` state. -/
inductive Status where
  | idle
  | loading
  | ready
  | error
deriving DecidableEq, Repr

/-- The React state of `QuizlerWidget` (the fields the embedded handlers
read or write), together with the externally visible effects:
`session` is the Supabase session (`some uid` when signed in), and `saved`
is the list of rows successfully inserted into `quiz_results`. -/
structure WidgetState where
  isOpen : Bool
  quiz : Option QuizPayload
  status : Status
  errorMsg : Option String
  selectedIndex : Option ℤ
  showResult : Bool
  questionIndex : ℕ
  correctCount : ℕ
  isComplete : Bool
  resultSaved : Bool
  session : Option String
  pendingResult : Option PendingResult
  saved : List SavedRow
deriving DecidableEq, Repr

/-- `TOTAL_QUESTIONS` from the content script. -/
def TOTAL_QUESTIONS : ℕ := 5

/-- `const quizData = isQuizPayload(quiz) ? quiz : null`. -/
def quizData (s : WidgetState) : Option QuizPayload :=
  if isQuizPayload s.quiz then s.quiz else none

/-- `const totalQuestions = quizData?.questions.length ?? TOTAL_QUESTIONS`. -/
def totalQuestions (s : WidgetState) : ℕ :=
  match quizData s with
  | some q => q.questions.length
  | none => TOTAL_QUESTIONS

/-- `const currentQuestion = quizData?.questions[questionIndex] ?? null`. -/
def currentQuestion (s : WidgetState) : Option QuizItem :=
  (quizData s).bind (fun q => q.questions[s.questionIndex]?)

/-- `const isLastQuestion = questionIndex >= totalQuestions - 1`.
(`totalQuestions` is always at least 1, so `ℕ` subtraction agrees with JS.) -/
def isLastQuestion (s : WidgetState) : Bool :=
  decide (totalQuestions s - 1 ≤ s.questionIndex)

/-- The percentage computed on completion in `handleNext`:
`Math.round((finalCorrect / totalQuestions) * 100)`. -/
def percentOf (finalCorrect total : ℕ) : ℤ :=
  jsRound ((finalCorrect : ℚ) / (total : ℚ) * 100)

/-- `saveQuizResult(score, total, percentage)` from the content script.
It re-reads the session via `supabase.auth.getSession()` (modelled by
`s.session`); `insertOk` is the outcome of the
`supabase.from("quiz_results").insert(...)` call.  Returns the new state
paired with the function's boolean result.  An insert error is only logged
(`console.error`), leaving the state unchanged. -/
def saveQuizResult (pageUrl pageTitle : String) (insertOk : Bool)
    (score total percentage : ℤ) (s : WidgetState) : WidgetState × Bool :=
  match s.session with
  | none => ({ s with pendingResult := some ⟨score, total, percentage⟩ }, false)
  | some uid =>
    if insertOk then
      ({ s with saved := s.saved ++ [⟨uid, score, total, percentage, pageUrl, pageTitle⟩],
                resultSaved := true }, true)
    else (s, false)

/-- `handleNext` from the content script, as one click of the primary
button.  `insertOk` parameterises the database outcome of any
`saveQuizResult` the click fires. -/
def handleNext (pageUrl pageTitle : String) (insertOk : Bool) (s : WidgetState) : WidgetState :=
  match currentQuestion s, s.selectedIndex with
  | none, _ => s
  | some _, none => s
  | some cq, some sel =>
    if s.showResult = false then
      let s' := if sel = cq.correctIndex then { s with correctCount := s.correctCount + 1 } else s
      { s' with showResult := true }
    else if isLastQuestion s = false then
      { s with questionIndex := s.questionIndex + 1, selectedIndex := none, showResult := false }
    else
      let s1 := { s with isComplete := true }
      let finalCorrect : ℕ := if sel = cq.correctIndex then s.correctCount + 1 else s.correctCount
      let pct := percentOf finalCorrect (totalQuestions s)
      (saveQuizResult pageUrl pageTitle insertOk (finalCorrect : ℤ) (totalQuestions s : ℤ) pct s1).1

/-- The synchronous head of `requestQuiz` (everything before the `await`):
`setStatus("loading"); setError(null); setQuiz(null); setSelectedIndex(null); setShowResult(false)`. -/
def requestQuizStart (s : WidgetState) : WidgetState :=
  { s with status := .loading, errorMsg := none, quiz := none,
           selectedIndex := none, showResult := false }

/-- `openWidget` from the content script.  Returns the new state paired with
whether a quiz request was triggered (`status === "idle" || status === "error"`). -/
def openWidget (s : WidgetState) : WidgetState × Bool :=
  let s' := { s with selectedIndex := none, showResult := false, questionIndex := 0,
                     correctCount := 0, isComplete := false, isOpen := true }
  if s'.status = Status.idle ∨ s'.status = Status.error then (requestQuizStart s', true)
  else (s', false)

/-- The `onAuthStateChange` callback of the widget's auth effect.
`newSession` is the session delivered by the event.  On a signed-in event it
flushes a pending result through `saveQuizResult` (which now sees the new
session) and clears the slot; the modal-only updates (`setShowAuthModal`
etc.) touch no field modelled here. -/
def authStateChange (pageUrl pageTitle : String) (insertOk : Bool)
    (newSession : Option String) (s : WidgetState) : WidgetState :=
  let s' := { s with session := newSession }
  match newSession with
  | none => s'
  | some _ =>
    match s'.pendingResult with
    | none => s'
    | some p =>
      let s1 := (saveQuizResult pageUrl pageTitle insertOk p.score p.total p.percentage s').1
      { s1 with pendingResult := none }

/-- A sequence of auth-state events applied in order; each event carries the
delivered session and the database outcome of any flush it triggers. -/
def applyAuthEvents (pageUrl pageTitle : String)
    (events : List (Option String × Bool)) (s : WidgetState) : WidgetState :=
  events.foldl (fun st e => authStateChange pageUrl pageTitle e.2 e.1 st) s

/-- `getScrollPercent` from the content script.  `scrollTop` stands for
`window.scrollY || doc.scrollTop`. -/
def getScrollPercent (scrollTop scrollHeight clientHeight : ℚ) : ℤ :=
  let scrollRange := scrollHeight - clientHeight
  if scrollRange ≤ 0 then 100
  else min 100 (max 0 (jsRound (scrollTop / scrollRange * 100)))

/-! ## Concrete inputs used by counterexamples and witnesses -/

/-- Absence of consecutive whitespace: no two adjacent characters are both
whitespace. -/
def NoConsecWs (l : List Char) : Prop :=
  l.Chain' (fun a b => jsIsWs a = false ∨ jsIsWs b = false)

/-- The page text `"a "` repeated `n` times. -/
def repAB (n : ℕ) : List Char := (List.replicate n ['a', ' ']).flatten


/-- A payload accepted by `isQuizPayload` although its `correctIndex` is 7. -/
def badPayload : QuizPayload := ⟨[⟨"q", ["a", "b", "c", "d"], 7⟩]⟩

/-- A completed-session state with status `ready`, for the reopening claim. -/
def c9State : WidgetState :=
  { isOpen := true, quiz := some badPayload, status := Status.ready, errorMsg := none,
    selectedIndex := some 2, showResult := true, questionIndex := 1,
    correctCount := 1, isComplete := true, resultSaved := false,
    session := none, pendingResult := none, saved := [] }

/-- A well-formed request body whose generation call will be made to fail. -/
def c8Body : GenBody :=
  { url := some "https://example.com", title := none, text := some ['h', 'i'], count := none }

/-- A neutral widget state for concrete instantiations. -/
def baseState : WidgetState :=
  { isOpen := false, quiz := none, status := Status.idle, errorMsg := none,
    selectedIndex := none, showResult := false, questionIndex := 0,
    correctCount := 0, isComplete := false, resultSaved := false,
    session := none, pendingResult := none, saved := [] }

/-- A one-question quiz whose correct option is index 0. -/
def c1Quiz : QuizPayload := ⟨[⟨"q", ["a", "b", "c", "d"], 0⟩]⟩

/-- The widget state right before submitting the (only) question of
`c1Quiz` with the correct option selected, signed in as `"uid"`. -/
def c1State : WidgetState :=
  { isOpen := true, quiz := some c1Quiz, status := Status.ready, errorMsg := none,
    selectedIndex := some 0, showResult := false, questionIndex := 0,
    correctCount := 0, isComplete := false, resultSaved := false,
    session := some "uid", pendingResult := none, saved := [] }

/-! ## Theorems -/

/-- C5: `saveQuizResult` persists the tuple tagged with the session's user
id, page URL and page title and reports the insert outcome as a boolean when
a session exists (failures leave the state unchanged, only logged); with no
session it stores the tuple as the single pending result (overwriting any
prior one), writes nothing, and returns `false`. -/
theorem saveQuizResult_spec (pageUrl pageTitle : String) (insertOk : Bool)
    (score total pct : ℤ) (s : WidgetState) :
    (s.session = none →
      saveQuizResult pageUrl pageTitle insertOk score total pct s
        = ({ s with pendingResult := some ⟨score, total, pct⟩ }, false)) ∧
    (∀ uid, s.session = some uid →
      saveQuizResult pageUrl pageTitle insertOk score total pct s
        = if insertOk
          then ({ s with saved := s.saved ++ [⟨uid, score, total, pct, pageUrl, pageTitle⟩],
                         resultSaved := true }, true)
          else (s, false)) := by
  constructor
  · intro h
    simp [saveQuizResult, h]
  · intro uid h
    cases insertOk <;> simp [saveQuizResult, h]

/-- C5 witness: with no session, a concrete save stores the pending tuple
and reports `false`. -/
theorem saveQuizResult_spec_witness :
    saveQuizResult "u" "t" true 3 5 60 baseState
      = ({ baseState with pendingResult := some ⟨3, 5, 60⟩ }, false) :=
  (saveQuizResult_spec "u" "t" true 3 5 60 baseState).1 rfl

/-- C9: `openWidget` resets selection, result visibility, question index,
correct count and completion flag, and triggers a quiz request exactly when
the status was `idle` or `error`; when no request is triggered the payload
and status are unchanged. -/
theorem openWidget_spec (s : WidgetState) :
    (openWidget s).1.selectedIndex = none ∧
    (openWidget s).1.showResult = false ∧
    (openWidget s).1.questionIndex = 0 ∧
    (openWidget s).1.correctCount = 0 ∧
    (openWidget s).1.isComplete = false ∧
    ((openWidget s).2 = true ↔ (s.status = Status.idle ∨ s.status = Status.error)) ∧
    ((openWidget s).2 = false → (openWidget s).1.quiz = s.quiz ∧ (openWidget s).1.status = s.status) := by
  by_cases h : s.status = Status.idle ∨ s.status = Status.error <;>
    simp [openWidget, requestQuizStart, h]

/-- C9 witness: reopening a completed session with status `ready` resets the
question index and does not trigger a request. -/
theorem openWidget_spec_witness :
    (openWidget c9State).1.questionIndex = 0 ∧ (openWidget c9State).2 = false :=
  ⟨(openWidget_spec c9State).2.2.1, by decide⟩

/-- C10: `getScrollPercent` always returns an integer in `[0, 100]`, and
returns exactly `100` whenever the document does not scroll
(`scrollHeight - clientHeight ≤ 0`). -/
theorem getScrollPercent_spec (scrollTop scrollHeight clientHeight : ℚ) :
    0 ≤ getScrollPercent scrollTop scrollHeight clientHeight ∧
    getScrollPercent scrollTop scrollHeight clientHeight ≤ 100 ∧
    (scrollHeight - clientHeight ≤ 0 → getScrollPercent scrollTop scrollHeight clientHeight = 100) := by
  by_cases h : scrollHeight - clientHeight ≤ 0
  · simp [getScrollPercent, h]
  · simp only [getScrollPercent, if_neg h]
    refine ⟨?_, ?_, fun hc => absurd hc h⟩ <;> omega

/-- C10 witness: a non-scrolling geometry yields exactly 100. -/
theorem getScrollPercent_spec_witness : getScrollPercent 0 5 10 = 100 :=
  (getScrollPercent_spec 0 5 10).2.2 (by norm_num)

/-- C2 counterexample: `isQuizPayload` accepts a payload whose only question
has `correctIndex = 7`, so acceptance does not imply
`correctIndex ∈ {0,1,2,3}`. -/
theorem isQuizPayload_correctIndex_counterexample :
    isQuizPayload (some badPayload) = true ∧
    ¬ (∀ it ∈ badPayload.questions, 0 ≤ it.correctIndex ∧ it.correctIndex ≤ 3) := by
  constructor
  · decide
  · decide

/-- C2 amended: every payload accepted by `isQuizPayload` has at least one
question and exactly 4 options per question (the predicate does not
constrain `correctIndex`). -/
theorem isQuizPayload_spec (v : QuizPayload) (h : isQuizPayload (some v) = true) :
    1 ≤ v.questions.length ∧ ∀ it ∈ v.questions, it.options.length = 4 := by
  unfold isQuizPayload at h
  simp only [Bool.and_eq_true, decide_eq_true_eq, List.all_eq_true, beq_iff_eq] at h
  exact ⟨h.1, h.2⟩

/-- C2 witness: the amended guarantee at a concrete accepted payload. -/
theorem isQuizPayload_spec_witness :
    1 ≤ c1Quiz.questions.length ∧ ∀ it ∈ c1Quiz.questions, it.options.length = 4 :=
  isQuizPayload_spec c1Quiz (by decide)

/-- C3 counterexample: a requested count of `0.5` is finite and positive, so
the clamp takes `min (Math.floor 0.5) 10 = 0`, which is outside `[1, 10]`. -/
theorem questionCount_fractional_counterexample :
    questionCount (some (JSNum.num (1 / 2))) = 0 ∧
    ¬ (1 ≤ questionCount (some (JSNum.num (1 / 2)))) := by
  have h : questionCount (some (JSNum.num (1 / 2))) = 0 := by
    simp only [questionCount, toRequestedCount]
    norm_num
  exact ⟨h, by rw [h]; norm_num⟩

/-- C3 amended: the question count always lies in `[0, 10]`; an absent,
non-numeric, infinite, zero or negative count yields 5; a count of at least
1 yields a value in `[1, 10]` (25 yields 10); only a fractional count
strictly between 0 and 1 escapes `[1, 10]`, yielding 0. -/
theorem questionCount_spec :
    (∀ c, 0 ≤ questionCount c ∧ questionCount c ≤ 10) ∧
    questionCount none = 5 ∧
    questionCount (some JSNum.nan) = 5 ∧
    questionCount (some JSNum.inf) = 5 ∧
    questionCount (some JSNum.ninf) = 5 ∧
    (∀ q : ℚ, q ≤ 0 → questionCount (some (JSNum.num q)) = 5) ∧
    (∀ q : ℚ, 1 ≤ q → 1 ≤ questionCount (some (JSNum.num q)) ∧
       questionCount (some (JSNum.num q)) ≤ 10) ∧
    (∀ q : ℚ, 0 < q → q < 1 → questionCount (some (JSNum.num q)) = 0) ∧
    questionCount (some (JSNum.num 25)) = 10 := by
  refine ⟨?_, rfl, rfl, rfl, rfl, ?_, ?_, ?_, ?_⟩
  · intro c
    match c with
    | none => exact ⟨by norm_num [questionCount, toRequestedCount], by norm_num [questionCount, toRequestedCount]⟩
    | some JSNum.nan => exact ⟨by norm_num [questionCount, toRequestedCount], by norm_num [questionCount, toRequestedCount]⟩
    | some JSNum.inf => exact ⟨by norm_num [questionCount, toRequestedCount], by norm_num [questionCount, toRequestedCount]⟩
    | some JSNum.ninf => exact ⟨by norm_num [questionCount, toRequestedCount], by norm_num [questionCount, toRequestedCount]⟩
    | some (JSNum.num q) =>
      simp only [questionCount, toRequestedCount]
      by_cases hq : 0 < q
      · rw [if_pos hq]
        refine ⟨le_min (Int.floor_nonneg.mpr hq.le) (by norm_num), min_le_right _ _⟩
      · rw [if_neg hq]; norm_num
  · intro q hq
    simp only [questionCount, toRequestedCount]
    rcases lt_or_eq_of_le hq with h | h
    · rw [if_neg (not_lt.mpr hq)]
    · rw [if_neg (not_lt.mpr hq)]
  · intro q hq
    simp only [questionCount, toRequestedCount]
    rw [if_pos (lt_of_lt_of_le one_pos hq)]
    refine ⟨le_min (Int.le_floor.mpr (by exact_mod_cast hq)) (by norm_num), min_le_right _ _⟩
  · intro q hq0 hq1
    simp only [questionCount, toRequestedCount]
    rw [if_pos hq0]
    have : ⌊q⌋ = 0 := Int.floor_eq_zero_iff.mpr ⟨hq0.le, hq1⟩
    rw [this]
    norm_num
  · simp only [questionCount, toRequestedCount]
    norm_num

/-- C3 witness: the amended clamp at a concrete in-range count. -/
theorem questionCount_spec_witness :
    1 ≤ questionCount (some (JSNum.num 7)) ∧ questionCount (some (JSNum.num 7)) ≤ 10 :=
  questionCount_spec.2.2.2.2.2.2.1 7 (by norm_num)

/-- C7: the completion percentage is a nearest integer to `100 × c / t`
(`Math.round` breaks ties upward, which is a nearest integer), and the
spec's instances hold: 3 of 5 gives 60, 2 of 3 gives 67. -/
theorem percentOf_spec :
    (∀ (c t : ℕ), 0 < t → ∀ z : ℤ,
        |(percentOf c t : ℚ) - 100 * (c : ℚ) / (t : ℚ)|
          ≤ |(z : ℚ) - 100 * (c : ℚ) / (t : ℚ)|) ∧
    percentOf 3 5 = 60 ∧ percentOf 2 3 = 67 := by
  refine ⟨?_, ?_, ?_⟩
  · intro c t _ z
    have h1 : percentOf c t = round ((100 : ℚ) * (c : ℚ) / (t : ℚ)) := by
      rw [percentOf, jsRound, ← round_eq]
      congr 1
      ring
    rw [h1, abs_sub_comm]
    exact (round_le _ z).trans_eq (abs_sub_comm _ _)
  · norm_num [percentOf, jsRound]
  · norm_num [percentOf, jsRound]

/-- C7 witness: the nearest-integer property instantiated at 3 of 5 against
the competing integer 59. -/
theorem percentOf_spec_witness :
    |(percentOf 3 5 : ℚ) - 100 * ((3 : ℕ) : ℚ) / ((5 : ℕ) : ℚ)|
      ≤ |((59 : ℤ) : ℚ) - 100 * ((3 : ℕ) : ℚ) / ((5 : ℕ) : ℚ)| :=
  percentOf_spec.1 3 5 (by norm_num) 59

/-- Case analysis of `generateQuiz`: empty selected text gives the 400
error, a successful generation gives the 200 payload with `sourceUrl`, and
a rejected generation propagates as an uncaught error. -/
theorem generateQuiz_cases (fetchO : String → List Char) (genO : ℤ → Except String QuizPayload)
    (url : String) (text : Option (List Char)) (count : Option JSNum) :
    (selectPageText fetchO url text = [] →
       generateQuiz fetchO genO url text count = .ok (.badRequest "Unable to extract page text")) ∧
    (∀ p, selectPageText fetchO url text ≠ [] → genO (questionCount count) = .ok p →
       generateQuiz fetchO genO url text count = .ok (.ok p url)) ∧
    (∀ e, selectPageText fetchO url text ≠ [] → genO (questionCount count) = .error e →
       generateQuiz fetchO genO url text count = .error e) := by
  refine ⟨fun he => ?_, fun p hne hg => ?_, fun e hne hg => ?_⟩
  · simp [generateQuiz, he]
  · simp [generateQuiz, List.isEmpty_iff, hne, hg]
  · simp [generateQuiz, List.isEmpty_iff, hne, hg]

/-- C8 counterexample: a well-formed request whose `generateObject` call
rejects makes `handleQuiz` itself reject (there is no `try`/`catch`), so the
route produces neither a 200 nor a 400 response at this input; the server
runtime surfaces it as an internal error instead. -/
theorem handleQuiz_uncaught_generation_error :
    handleQuiz (fun _ => []) (fun _ => Except.error "model failure") (some c8Body)
      = Except.error "model failure" := by
  rfl

/-- C8 amended: whenever the generation call succeeds, every request gets a
200 or a 400 response; a missing/unparsable body or non-string `url` gets
`400 Missing url`; an empty text selection with nothing fetchable gets
`400 Unable to extract page text`; and a successful generation gets
`200 { questions, sourceUrl }`.  A rejected generation call escapes the
route uncaught. -/
theorem handleQuiz_spec (fetchO : String → List Char) (genO : ℤ → Except String QuizPayload)
    (parsed : Option GenBody) :
    ((∀ n, ∃ p, genO n = .ok p) → ∃ r : Resp, handleQuiz fetchO genO parsed = .ok r) ∧
    (parsed = none → handleQuiz fetchO genO parsed = .ok (.badRequest "Missing url")) ∧
    (∀ b, parsed = some b → b.url = none →
        handleQuiz fetchO genO parsed = .ok (.badRequest "Missing url")) ∧
    (∀ b url, parsed = some b → b.url = some url →
        selectPageText fetchO url b.text = [] →
        handleQuiz fetchO genO parsed = .ok (.badRequest "Unable to extract page text")) ∧
    (∀ b url p, parsed = some b → b.url = some url →
        selectPageText fetchO url b.text ≠ [] →
        genO (questionCount b.count) = .ok p →
        handleQuiz fetchO genO parsed = .ok (.ok p url)) := by
  refine ⟨?_, ?_, ?_, ?_, ?_⟩
  · intro hgen
    match parsed with
    | none => exact ⟨.badRequest "Missing url", rfl⟩
    | some b =>
      match hu : b.url with
      | none => exact ⟨.badRequest "Missing url", by simp [handleQuiz, hu]⟩
      | some url =>
        by_cases he : selectPageText fetchO url b.text = []
        · exact ⟨.badRequest "Unable to extract page text",
            by simp [handleQuiz, hu, (generateQuiz_cases fetchO genO url b.text b.count).1 he]⟩
        · obtain ⟨p, hp⟩ := hgen (questionCount b.count)
          exact ⟨.ok p url,
            by simp [handleQuiz, hu, (generateQuiz_cases fetchO genO url b.text b.count).2.1 p he hp]⟩
  · intro h
    subst h
    rfl
  · intro b hb hu
    subst hb
    simp [handleQuiz, hu]
  · intro b url hb hu he
    subst hb
    simp [handleQuiz, hu, (generateQuiz_cases fetchO genO url b.text b.count).1 he]
  · intro b url p hb hu hne hg
    subst hb
    simp [handleQuiz, hu, (generateQuiz_cases fetchO genO url b.text b.count).2.1 p hne hg]

/-- C8 witness: a concrete body with nonempty text and a succeeding
generation oracle gets a `200` response carrying the payload and the
request's url as `sourceUrl`. -/
theorem handleQuiz_spec_witness :
    handleQuiz (fun _ => []) (fun _ => Except.ok c1Quiz) (some c8Body)
      = Except.ok (Resp.ok c1Quiz "https://example.com") :=
  (handleQuiz_spec (fun _ => []) (fun _ => Except.ok c1Quiz) (some c8Body)).2.2.2.2
    c8Body "https://example.com" c1Quiz rfl rfl (by decide) rfl

/-- A single auth event leaves `saved` unchanged and creates no pending
result when the pending slot is already empty. -/
theorem auth_event_no_pending (pageUrl pageTitle : String) (ok : Bool) (ev : Option String)
    (st : WidgetState) (h : st.pendingResult = none) :
    (authStateChange pageUrl pageTitle ok ev st).saved = st.saved ∧
    (authStateChange pageUrl pageTitle ok ev st).pendingResult = none := by
  cases ev
  · simp [authStateChange, h]
  · simp [authStateChange, h]

/-- Any sequence of auth events leaves `saved` unchanged once the pending
slot is empty. -/
theorem auth_events_no_pending (pageUrl pageTitle : String)
    (events : List (Option String × Bool)) :
    ∀ st : WidgetState, st.pendingResult = none →
      (applyAuthEvents pageUrl pageTitle events st).saved = st.saved ∧
      (applyAuthEvents pageUrl pageTitle events st).pendingResult = none := by
  induction events with
  | nil => exact fun st h => ⟨rfl, h⟩
  | cons e es ih =>
    intro st h
    have he := auth_event_no_pending pageUrl pageTitle e.2 e.1 st h
    have hs := ih (authStateChange pageUrl pageTitle e.2 e.1 st) he.2
    simp only [applyAuthEvents, List.foldl_cons] at *
    exact ⟨hs.1.trans he.1, hs.2⟩

/-- C4: a pending result present at a sign-in transition is flushed through
the immediate-persist path exactly once — the flushed row is appended to the
database and the pending slot is cleared — and no sequence of later
auth-state events (sign-ins or sign-outs) persists anything further. -/
theorem pending_result_flushed_once (pageUrl pageTitle uid : String)
    (s : WidgetState) (p : PendingResult) (hp : s.pendingResult = some p) :
    (authStateChange pageUrl pageTitle true (some uid) s).pendingResult = none ∧
    (authStateChange pageUrl pageTitle true (some uid) s).saved
      = s.saved ++ [⟨uid, p.score, p.total, p.percentage, pageUrl, pageTitle⟩] ∧
    ∀ events : List (Option String × Bool),
      (applyAuthEvents pageUrl pageTitle events
          (authStateChange pageUrl pageTitle true (some uid) s)).saved
        = (authStateChange pageUrl pageTitle true (some uid) s).saved := by
  have h1 : (authStateChange pageUrl pageTitle true (some uid) s).pendingResult = none := by
    simp [authStateChange, hp, saveQuizResult]
  refine ⟨h1, ?_, ?_⟩
  · simp [authStateChange, hp, saveQuizResult]
  · intro events
    exact (auth_events_no_pending pageUrl pageTitle events _ h1).1

/-- C4 witness: a concrete pending result is flushed on sign-in, and two
further auth events (a sign-out and another sign-in) add nothing. -/
theorem pending_result_flushed_once_witness :
    (applyAuthEvents "u" "t" [(none, true), (some "uid2", true)]
        (authStateChange "u" "t" true (some "uid")
          { baseState with pendingResult := some ⟨1, 5, 20⟩ })).saved
      = (authStateChange "u" "t" true (some "uid")
          { baseState with pendingResult := some ⟨1, 5, 20⟩ }).saved :=
  (pending_result_flushed_once "u" "t" "uid"
    { baseState with pendingResult := some ⟨1, 5, 20⟩ } ⟨1, 5, 20⟩ rfl).2.2
    [(none, true), (some "uid2", true)]

/-- C1 (bug exhibit): submitting the correct answer on the last question and
then clicking "Finish Quiz" persists `c + 2`, where `c` is the correct count
accumulated over the earlier questions.  The submit click already increments
the counter (its update is rendered before the finish click), and the finish
click adds 1 again, contradicting the source's own comment that "state
hasn't updated yet". -/
theorem final_submission_double_counts
    (pageUrl pageTitle uid : String) (s : WidgetState) (cq : QuizItem)
    (hq : currentQuestion s = some cq)
    (hsel : s.selectedIndex = some cq.correctIndex)
    (hshow : s.showResult = false)
    (hlast : isLastQuestion s = true)
    (hsess : s.session = some uid) :
    (handleNext pageUrl pageTitle true (handleNext pageUrl pageTitle true s)).saved
      = s.saved ++ [⟨uid, (s.correctCount : ℤ) + 2, (totalQuestions s : ℤ),
                    percentOf (s.correctCount + 2) (totalQuestions s), pageUrl, pageTitle⟩] := by
  simp only [isLastQuestion, decide_eq_true_eq, totalQuestions, quizData] at hlast
  have h1 : handleNext pageUrl pageTitle true s
      = { s with correctCount := s.correctCount + 1, showResult := true } := by
    unfold handleNext
    rw [hq, hsel]
    simp [hshow]
  rw [h1]
  have hq' : currentQuestion { s with correctCount := s.correctCount + 1, showResult := true }
      = some cq := hq
  unfold handleNext
  rw [hq']
  simp [saveQuizResult, hsess, hsel, isLastQuestion, totalQuestions, quizData, percentOf]
  rw [if_neg (by omega)]
  simp only [SavedRow.mk.injEq, List.append_cancel_left_eq, List.cons.injEq, and_true, true_and]
  constructor
  · ring
  · congr 1
    ring

/-- C1 witness: on a concrete one-question quiz answered correctly while
signed in, the two clicks persist a score of 2 out of 1 question. -/
theorem final_submission_double_counts_witness :
    (handleNext "u" "t" true (handleNext "u" "t" true c1State)).saved
      = c1State.saved ++ [⟨"uid", (c1State.correctCount : ℤ) + 2, (totalQuestions c1State : ℤ),
                          percentOf (c1State.correctCount + 2) (totalQuestions c1State), "u", "t"⟩] :=
  final_submission_double_counts "u" "t" "uid" c1State ⟨"q", ["a", "b", "c", "d"], 0⟩
    (by decide) (by decide) (by decide) (by decide) (by decide)

theorem jsIsWs_a : jsIsWs 'a' = false := by decide

theorem jsIsWs_space : jsIsWs ' ' = true := by decide

/-- The head of a `dropWhile` result does not satisfy the predicate. -/
theorem hd_dropWhile {α : Type _} (p : α → Bool) :
    ∀ (l : List α) (c : α), (l.dropWhile p).head? = some c → p c = false := by
  intro l
  induction l with
  | nil =>
    intro c h
    simp [List.dropWhile] at h
  | cons a t ih =>
    intro c h
    cases hp : p a
    · rw [List.dropWhile_cons, hp] at h
      simp at h
      rw [← h]
      exact hp
    · rw [List.dropWhile_cons, hp] at h
      exact ih c h

/-- Taking a positive number of elements keeps the head. -/
theorem head?_take_pos {α : Type _} (l : List α) (n : ℕ) (h : 0 < n) :
    (l.take n).head? = l.head? := by
  cases l
  · simp
  · cases n
    · omega
    · simp

/-- Reversing a suffix yields an initial segment of the reversal. -/
theorem reverse_of_suffix {α : Type _} {s l : List α} (h : s <:+ l) :
    s.reverse <+: l.reverse := by
  obtain ⟨t, rfl⟩ := h
  exact ⟨t.reverse, by simp⟩

/-- An initial segment shares its head with the full list. -/
theorem head_some_of_isPre {α : Type _} {s l : List α} (h : s <+: l) {c : α}
    (hc : s.head? = some c) : l.head? = some c := by
  obtain ⟨t, rfl⟩ := h
  cases s
  · simp at hc
  · simpa using hc

/-- After a collapse that starts inside a whitespace run, the first emitted
character is not whitespace. -/
theorem collapseWs_true_head :
    ∀ (l : List Char) (c : Char), (collapseWs true l).head? = some c → jsIsWs c = false := by
  intro l
  induction l with
  | nil =>
    intro c h
    simp [collapseWs] at h
  | cons a t ih =>
    intro c h
    cases ha : jsIsWs a
    · simp [collapseWs, ha] at h
      rw [← h]
      exact ha
    · simp [collapseWs, ha] at h
      exact ih c h

/-- The collapse output never contains two adjacent whitespace characters. -/
theorem collapseWs_chain (l : List Char) :
    ∀ b, (collapseWs b l).Chain' (fun a b => jsIsWs a = false ∨ jsIsWs b = false) := by
  induction l with
  | nil =>
    intro b
    simp [collapseWs]
  | cons a t ih =>
    intro b
    cases ha : jsIsWs a
    · simp only [collapseWs, ha, Bool.false_eq_true, if_false]
      rw [List.chain'_cons']
      exact ⟨fun y _ => Or.inl ha, ih false⟩
    · cases b
      · have hstep : collapseWs false (a :: t) = ' ' :: collapseWs true t := by
          simp [collapseWs, ha]
        rw [hstep, List.chain'_cons']
        exact ⟨fun y hy => Or.inr (collapseWs_true_head t y hy), ih true⟩
      · have hstep : collapseWs true (a :: t) = collapseWs true t := by
          simp [collapseWs, ha]
        rw [hstep]
        exact ih true

/-- The collected page text has no two adjacent whitespace characters. -/
theorem collectPageText_noConsec (input : List Char) : NoConsecWs (collectPageText input) := by
  unfold NoConsecWs collectPageText jsTrim
  have h0 := collapseWs_chain input false
  have h1 := List.Chain'.suffix h0 (List.dropWhile_suffix jsIsWs)
  have h2 := List.chain'_reverse.mpr (List.Chain'.imp (fun a b hab => Or.symm hab) h1)
  have h3 := List.Chain'.suffix h2 (List.dropWhile_suffix jsIsWs)
  have h4 := List.chain'_reverse.mpr (List.Chain'.imp (fun a b hab => Or.symm hab) h3)
  exact List.Chain'.take h4 MAX_TEXT_LENGTH

/-- C6 amended: the collected page text never exceeds 9000 characters,
contains no two adjacent whitespace characters, and never starts with
whitespace; it also never ends with whitespace unless truncation at the
9000-character limit cut the collapsed-and-trimmed text, which can leave a
single trailing space. -/
theorem collectPageText_spec (input : List Char) :
    (collectPageText input).length ≤ 9000 ∧
    NoConsecWs (collectPageText input) ∧
    (∀ c, (collectPageText input).head? = some c → jsIsWs c = false) ∧
    ((jsTrim (collapseWs false input)).length ≤ 9000 →
      ∀ c, (collectPageText input).getLast? = some c → jsIsWs c = false) := by
  refine ⟨List.length_take_le _ _, collectPageText_noConsec input, ?_, ?_⟩
  · intro c hc
    have h9 : (jsTrim (collapseWs false input)).head? = some c := by
      rw [← head?_take_pos (jsTrim (collapseWs false input)) MAX_TEXT_LENGTH (by decide)]
      exact hc
    have hpre : jsTrim (collapseWs false input) <+: (collapseWs false input).dropWhile jsIsWs := by
      unfold jsTrim
      have hs := List.dropWhile_suffix
        (l := ((collapseWs false input).dropWhile jsIsWs).reverse) jsIsWs
      simpa using reverse_of_suffix hs
    exact hd_dropWhile jsIsWs _ c (head_some_of_isPre hpre h9)
  · intro hlen c hc
    have heq : collectPageText input = jsTrim (collapseWs false input) := by
      unfold collectPageText
      exact List.take_of_length_le hlen
    rw [heq] at hc
    unfold jsTrim at hc
    rw [List.getLast?_reverse] at hc
    exact hd_dropWhile jsIsWs _ c hc

/-- C6 witness: the amended guarantee at a concrete short page text. -/
theorem collectPageText_spec_witness :
    (collectPageText ['a', ' ', 'b']).length ≤ 9000 ∧ jsIsWs 'b' = false :=
  ⟨(collectPageText_spec ['a', ' ', 'b']).1,
   (collectPageText_spec ['a', ' ', 'b']).2.2.2 (by decide) 'b' (by decide)⟩

theorem repAB_succ (n : ℕ) : repAB (n + 1) = 'a' :: ' ' :: repAB n := by
  unfold repAB
  rw [List.replicate_succ, List.flatten_cons]
  rfl

theorem repAB_add (m n : ℕ) : repAB (m + n) = repAB m ++ repAB n := by
  unfold repAB
  rw [List.replicate_add, List.flatten_append]

theorem repAB_length (n : ℕ) : (repAB n).length = 2 * n := by
  induction n with
  | zero => rfl
  | succ k ih =>
    rw [repAB_succ]
    simp [ih]
    ring

/-- The repeated pattern has no whitespace runs, so collapsing fixes it. -/
theorem collapseWs_repAB (n : ℕ) : ∀ b, collapseWs b (repAB n) = repAB n := by
  induction n with
  | zero => intro b; rfl
  | succ k ih =>
    intro b
    rw [repAB_succ]
    simp [collapseWs, jsIsWs_a, jsIsWs_space, ih true]

/-- Trimming the repeated pattern removes exactly the final space. -/
theorem jsTrim_repAB (n : ℕ) : jsTrim (repAB (n + 1)) = repAB n ++ ['a'] := by
  have h1 : (repAB (n + 1)).dropWhile jsIsWs = repAB (n + 1) := by
    rw [repAB_succ, List.dropWhile_cons, jsIsWs_a]
    simp
  have h2 : repAB (n + 1) = repAB n ++ ['a', ' '] := repAB_add n 1
  unfold jsTrim
  rw [h1, h2]
  simp [List.dropWhile_cons, jsIsWs_space, jsIsWs_a]

/-- Collecting 10000 characters of `"a "`-pattern text truncates after a
word boundary, keeping the space at position 8999. -/
theorem collectPageText_repAB : collectPageText (repAB 5000) = repAB 4500 := by
  unfold collectPageText
  rw [collapseWs_repAB 5000 false,
      show (5000 : ℕ) = 4999 + 1 from rfl, jsTrim_repAB 4999,
      show (4999 : ℕ) = 4500 + 499 from rfl, repAB_add 4500 499,
      List.append_assoc,
      show MAX_TEXT_LENGTH = (repAB 4500).length from by simp [MAX_TEXT_LENGTH, repAB_length]]
  exact List.take_left _ _

/-- C6 counterexample: for the 10000-character page text `"a " × 5000`, the
collected text ends in a space — truncation at 9000 characters can leave
trailing whitespace, refuting the no-trailing-whitespace part of the claim. -/
theorem collectPageText_trailing_space_counterexample :
    (collectPageText (repAB 5000)).getLast? = some ' ' ∧
    ¬ (∀ c, (collectPageText (repAB 5000)).getLast? = some c → jsIsWs c = false) := by
  have h : (collectPageText (repAB 5000)).getLast? = some ' ' := by
    rw [collectPageText_repAB,
        show (4500 : ℕ) = 4499 + 1 from rfl, repAB_add 4499 1,
        show repAB 1 = ['a', ' '] from rfl,
        show repAB 4499 ++ ['a', ' '] = (repAB 4499 ++ ['a']) ++ [' '] from by simp]
    exact List.getLast?_concat _
  refine ⟨h, fun hall => ?_⟩
  exact absurd (hall ' ' h) (by decide)

end Quizler
